import Mathlib

/-!
Shallow embedding of `src/mcp_firebase_server.py` (davo20019/mcp-firebase-server).

The module exposes five Firestore tool operations plus a lifespan initializer.
Python dictionaries are modelled as association lists with unique-key update
semantics (`dictSet` replaces in place, else appends, matching CPython dict
assignment order).  The Firestore client is modelled as a record of store
operations each returning `Except String` (an `Except.error e` models the
Python exception with message `str(e)` caught by the `except Exception` blocks).
Every tool also returns the list of store calls it issued, in order, so that
"no store call is attempted" claims are directly statable.
-/

/-- JSON-compatible field values occurring in documents (Python values). -/
inductive Value where
  | vnull
  | vbool (b : Bool)
  | vint (n : Int)
  | vstr (s : String)
deriving Repr, DecidableEq

/-- A Python dict with string keys, as an ordered association list. -/
abbrev Dict := List (String × Value)

/-- Python dict read access `d[k]` / `d.get(k)`: first binding wins (keys are
unique in dicts built by the program). -/
def dictLookup : Dict → String → Option Value
  | [], _ => none
  | (k', v') :: rest, k => if k' = k then some v' else dictLookup rest k

/-- Python dict assignment `d[k] = v`: replaces the existing binding in place,
otherwise appends the new binding at the end. -/
def dictSet : Dict → String → Value → Dict
  | [], k, v => [(k, v)]
  | (k', v') :: rest, k, v =>
      if k' = k then (k, v) :: rest else (k', v') :: dictSet rest k v

/-- A stored Firestore document: its store-assigned identifier and its
field mapping (`doc.to_dict()` of an existing snapshot). -/
structure StoredDoc where
  id : String
  fields : Dict
deriving Repr, DecidableEq

/-- A `DocumentSnapshot` as returned by `doc_ref.get()`: the `exists`
attribute, the result of `to_dict()` (`none` models Python `None`), and the
snapshot `id`. -/
structure Snapshot where
  exists_ : Bool
  toDict : Option Dict
  id : String
deriving Repr, DecidableEq

/-- Python truthiness of `doc.to_dict()` (`if doc_data:`): `None` and the
empty dict are falsy, every non-empty dict is truthy. -/
def optDictTruthy : Option Dict → Bool
  | none => false
  | some d => !d.isEmpty

/-- The Firestore client surface used by the five tools.  Each operation may
fail with an exception message (`Except.error`). -/
structure Client where
  queryStream : String → Nat → Except String (List StoredDoc)
  addDoc : String → Dict → Except String String
  collectionsList : Except String (List String)
  getDoc : String → String → Except String Snapshot
  docCollections : String → String → Except String (List String)

/-- One store call issued by a tool, recorded in order of execution. -/
inductive StoreCall where
  | queryStream (c : String) (n : Nat)
  | addDoc (c : String) (d : Dict)
  | collectionsList
  | getDoc (c : String) (d : String)
  | docCollections (c : String) (d : String)
deriving Repr, DecidableEq

/-- The loop body of `query_firestore_collection`: for each streamed doc,
`doc_data = doc.to_dict(); if doc_data: doc_data['id'] = doc.id;
documents.append(doc_data)`. -/
def collectDocs : List StoredDoc → List Dict
  | [] => []
  | doc :: rest =>
      if doc.fields.isEmpty then collectDocs rest
      else dictSet doc.fields "id" (Value.vstr doc.id) :: collectDocs rest

/-- `query_firestore_collection(collection_name, limit=50)`.  Returns the tool
result together with the store calls issued. -/
def query_firestore_collection (db : Option Client) (collection_name : String)
    (limit : Nat) : List Dict × List StoreCall :=
  match db with
  | none =>
      ([[("error", Value.vstr
          "Firestore not initialized. Check server logs and serviceAccountKey.json.")]],
       [])
  | some client =>
      match client.queryStream collection_name limit with
      | Except.ok docs =>
          (collectDocs docs, [StoreCall.queryStream collection_name limit])
      | Except.error e =>
          ([[("error", Value.vstr
              ("Failed to query collection \x27" ++ collection_name ++ "\x27: " ++ e))]],
           [StoreCall.queryStream collection_name limit])

/-- `add_document_to_firestore(collection_name, document_data)`. -/
def add_document_to_firestore (db : Option Client) (collection_name : String)
    (document_data : Dict) : Dict × List StoreCall :=
  match db with
  | none =>
      ([("success", Value.vbool false),
        ("error", Value.vstr
          "Firestore not initialized. Check server logs and serviceAccountKey.json.")],
       [])
  | some client =>
      match client.addDoc collection_name document_data with
      | Except.ok newId =>
          ([("success", Value.vbool true), ("id", Value.vstr newId),
            ("message", Value.vstr
              ("Document added to \x27" ++ collection_name ++ "\x27"))],
           [StoreCall.addDoc collection_name document_data])
      | Except.error e =>
          ([("success", Value.vbool false),
            ("error", Value.vstr
              ("Failed to add document to \x27" ++ collection_name ++ "\x27: " ++ e))],
           [StoreCall.addDoc collection_name document_data])

/-- `list_firestore_collections()`. -/
def list_firestore_collections (db : Option Client) :
    List Dict × List StoreCall :=
  match db with
  | none =>
      ([[("error", Value.vstr "Firestore not initialized. Check server logs.")]], [])
  | some client =>
      match client.collectionsList with
      | Except.ok ids =>
          (ids.map (fun i => [("id", Value.vstr i)]), [StoreCall.collectionsList])
      | Except.error e =>
          ([[("error", Value.vstr ("Failed to list collections: " ++ e))]],
           [StoreCall.collectionsList])

/-- `get_firestore_document(collection_name, document_id)`. -/
def get_firestore_document (db : Option Client) (collection_name : String)
    (document_id : String) : Dict × List StoreCall :=
  match db with
  | none =>
      ([("error", Value.vstr "Firestore not initialized. Check server logs.")], [])
  | some client =>
      match client.getDoc collection_name document_id with
      | Except.ok snap =>
          if snap.exists_ then
            if optDictTruthy snap.toDict then
              (dictSet (snap.toDict.getD []) "id" (Value.vstr snap.id),
               [StoreCall.getDoc collection_name document_id])
            else
              ([("id", Value.vstr snap.id), ("data", Value.vnull),
                ("message", Value.vstr "Document exists but contains no data.")],
               [StoreCall.getDoc collection_name document_id])
          else
            ([("error", Value.vstr
                ("Document \x27" ++ document_id ++ "\x27 not found in \x27" ++
                 collection_name ++ "\x27."))],
             [StoreCall.getDoc collection_name document_id])
      | Except.error e =>
          ([("error", Value.vstr
              ("Failed to get document \x27" ++ document_id ++ "\x27 from \x27" ++
               collection_name ++ "\x27: " ++ e))],
           [StoreCall.getDoc collection_name document_id])

/-- `list_document_subcollections(collection_name, document_id)`.  Both the
existence probe and the subcollection enumeration sit inside one `try`, so an
exception from either maps to the same error payload. -/
def list_document_subcollections (db : Option Client) (collection_name : String)
    (document_id : String) : List Dict × List StoreCall :=
  match db with
  | none =>
      ([[("error", Value.vstr "Firestore not initialized. Check server logs.")]], [])
  | some client =>
      match client.getDoc collection_name document_id with
      | Except.ok snap =>
          if !snap.exists_ then
            ([[("error", Value.vstr
                ("Document \x27" ++ document_id ++ "\x27 not found in \x27" ++
                 collection_name ++ "\x27."))]],
             [StoreCall.getDoc collection_name document_id])
          else
            match client.docCollections collection_name document_id with
            | Except.ok ids =>
                (ids.map (fun i => [("id", Value.vstr i)]),
                 [StoreCall.getDoc collection_name document_id,
                  StoreCall.docCollections collection_name document_id])
            | Except.error e =>
                ([[("error", Value.vstr
                    ("Failed to list subcollections for \x27" ++ document_id ++
                     "\x27: " ++ e))]],
                 [StoreCall.getDoc collection_name document_id,
                  StoreCall.docCollections collection_name document_id])
      | Except.error e =>
          ([[("error", Value.vstr
              ("Failed to list subcollections for \x27" ++ document_id ++
               "\x27: " ++ e))]],
           [StoreCall.getDoc collection_name document_id])

/-- Environment for `firebase_lifespan`: whether the credential file exists at
the resolved path, and the outcome of building credentials and the Firestore
client (`Except.error` models an exception during that block). -/
structure InitEnv where
  credFileExists : Bool
  buildClient : Except String Client

/-- `firebase_lifespan`: returns the Store Handle (`db`) finally in effect and
whether the server was signalled ready to serve (the generator reached
`yield`). -/
def firebase_lifespan (env : InitEnv) : Option Client × Bool :=
  if env.credFileExists then
    match env.buildClient with
    | Except.ok c => (some c, true)
    | Except.error _ => (none, true)
  else
    (none, true)

/-- A concrete functional model of the Firestore database state used to
instantiate `Client` on the exception-free path: top-level collections (name
to stored documents), subcollection names keyed by (collection, document id),
and a counter from which auto-generated document ids are drawn. -/
structure FStore where
  colls : List (String × List StoredDoc)
  subcolls : List ((String × String) × List String)
  counter : Nat
deriving Repr

/-- Association lookup over collection bindings, first match wins. -/
def lookupColl : List (String × List StoredDoc) → String → List StoredDoc
  | [], _ => []
  | (c', docs) :: rest, c => if c' = c then docs else lookupColl rest c

/-- Association lookup over subcollection bindings, first match wins. -/
def lookupSub : List ((String × String) × List String) → String → String →
    List String
  | [], _, _ => []
  | (key, ids) :: rest, c, d =>
      if key.1 = c ∧ key.2 = d then ids else lookupSub rest c d

/-- Documents of a named collection (empty when the collection is absent). -/
def collDocs (s : FStore) (c : String) : List StoredDoc :=
  lookupColl s.colls c

/-- Subcollection ids of a document (empty when none are recorded). -/
def subcollIds (s : FStore) (c d : String) : List String :=
  lookupSub s.subcolls c d

/-- First stored document with the given id, if any. -/
def findDoc : List StoredDoc → String → Option StoredDoc
  | [], _ => none
  | doc :: rest, d => if doc.id = d then some doc else findDoc rest d

/-- The next auto-generated document id of the store. -/
def freshId (s : FStore) : String := "auto-" ++ toString s.counter

/-- Replace the binding of a collection name, or append a new one. -/
def collsSet : List (String × List StoredDoc) → String → List StoredDoc →
    List (String × List StoredDoc)
  | [], c, docs => [(c, docs)]
  | (c', docs') :: rest, c, docs =>
      if c' = c then (c, docs) :: rest else (c', docs') :: collsSet rest c docs

/-- `collection(c).add(data)`: appends a document under a fresh auto id and
returns the updated store with the new id. -/
def storeAdd (s : FStore) (c : String) (data : Dict) : FStore × String :=
  let newId := freshId s
  (⟨collsSet s.colls c (collDocs s c ++ [⟨newId, data⟩]), s.subcolls,
    s.counter + 1⟩, newId)

/-- `collection(c).document(d).get()` on the concrete store. -/
def storeGetDoc (s : FStore) (c d : String) : Snapshot :=
  match findDoc (collDocs s c) d with
  | some doc => ⟨true, some doc.fields, doc.id⟩
  | none => ⟨false, none, d⟩

/-- The exception-free `Client` reading from a concrete store. -/
def storeClient (s : FStore) : Client where
  queryStream := fun c n => Except.ok ((collDocs s c).take n)
  addDoc := fun c data => Except.ok (storeAdd s c data).2
  collectionsList := Except.ok (s.colls.map (fun p => p.1))
  getDoc := fun c d => Except.ok (storeGetDoc s c d)
  docCollections := fun c d => Except.ok (subcollIds s c d)

/-- String `t` occurs as a contiguous substring of `s`. -/
def containsStr (s t : String) : Prop := t.data <:+: s.data

instance (s t : String) : Decidable (containsStr s t) := by
  unfold containsStr
  infer_instance

/-- The empty database. -/
def emptyStore : FStore := ⟨[], [], 0⟩

/-- A store with one "users" collection holding two documents; "u1" carries a
stored field literally named "id" (value "shadow"), exercising the overwrite
behaviour of the merged identifier. -/
def wStore : FStore :=
  ⟨[("users",
     [⟨"u1", [("id", Value.vstr "shadow"), ("name", Value.vstr "Ada")]⟩,
      ⟨"u2", [("x", Value.vint 3)]⟩])], [], 0⟩

/-- A store whose only document exists but has an empty field mapping. -/
def emptyDocStore : FStore := ⟨[("c", [⟨"d1", []⟩])], [], 0⟩

/-- A client whose every store operation raises with message "boom". -/
def allFailClient : Client where
  queryStream := fun _ _ => Except.error "boom"
  addDoc := fun _ _ => Except.error "boom"
  collectionsList := Except.error "boom"
  getDoc := fun _ _ => Except.error "boom"
  docCollections := fun _ _ => Except.error "boom"

/-- A client whose existence probe succeeds (parent present) but whose
subcollection enumeration raises with message "boom". -/
def subcollFailClient : Client where
  queryStream := fun _ _ => Except.error "boom"
  addDoc := fun _ _ => Except.error "boom"
  collectionsList := Except.error "boom"
  getDoc := fun _ d => Except.ok ⟨true, some [("x", Value.vint 1)], d⟩
  docCollections := fun _ _ => Except.error "boom"

theorem dictLookup_dictSet_self (d : Dict) (k : String) (v : Value) :
    dictLookup (dictSet d k v) k = some v := by
  induction d with
  | nil => simp [dictSet, dictLookup]
  | cons p rest ih =>
      obtain ⟨k', v'⟩ := p
      by_cases h : k' = k
      · subst h
        simp [dictSet, dictLookup]
      · simp [dictSet, dictLookup, h, ih]

theorem dictLookup_dictSet_other (d : Dict) (k j : String) (v : Value)
    (h : j ≠ k) : dictLookup (dictSet d k v) j = dictLookup d j := by
  induction d with
  | nil => simp [dictSet, dictLookup, Ne.symm h]
  | cons p rest ih =>
      obtain ⟨k', v'⟩ := p
      by_cases hk : k' = k
      · subst hk
        simp [dictSet, dictLookup, Ne.symm h]
      · by_cases hj : k' = j
        · subst hj
          simp [dictSet, dictLookup, hk]
        · simp [dictSet, dictLookup, hk, hj, ih]

theorem collectDocs_eq_map (l : List StoredDoc)
    (h : ∀ doc ∈ l, doc.fields ≠ []) :
    collectDocs l = l.map (fun doc => dictSet doc.fields "id" (Value.vstr doc.id)) := by
  induction l with
  | nil => rfl
  | cons a rest ih =>
      have ha : ¬ a.fields.isEmpty := by
        simpa [List.isEmpty_iff] using h a (by simp)
      simp [collectDocs, ha, ih fun doc hd => h doc (by simp [hd])]

theorem mem_collectDocs (l : List StoredDoc) (r : Dict)
    (h : r ∈ collectDocs l) :
    ∃ doc, doc ∈ l ∧ r = dictSet doc.fields "id" (Value.vstr doc.id) := by
  induction l with
  | nil => simp [collectDocs] at h
  | cons a rest ih =>
      by_cases ha : a.fields.isEmpty
      · rw [collectDocs, if_pos ha] at h
        obtain ⟨doc, hm, he⟩ := ih h
        exact ⟨doc, by simp [hm], he⟩
      · rw [collectDocs, if_neg ha] at h
        rcases List.mem_cons.mp h with h | h
        · exact ⟨a, by simp, h⟩
        · obtain ⟨doc, hm, he⟩ := ih h
          exact ⟨doc, by simp [hm], he⟩

theorem lookupColl_collsSet (l : List (String × List StoredDoc)) (c : String)
    (docs : List StoredDoc) : lookupColl (collsSet l c docs) c = docs := by
  induction l with
  | nil => simp [collsSet, lookupColl]
  | cons p rest ih =>
      obtain ⟨c', docs'⟩ := p
      by_cases h : c' = c
      · subst h
        simp [collsSet, lookupColl]
      · simp [collsSet, lookupColl, h, ih]

theorem collDocs_storeAdd (s : FStore) (c : String) (data : Dict) :
    collDocs (storeAdd s c data).1 c = collDocs s c ++ [⟨freshId s, data⟩] := by
  simp [collDocs, storeAdd, lookupColl_collsSet]

theorem findDoc_append_sentinel (l : List StoredDoc) (doc : StoredDoc)
    (d : String) (h : findDoc l d = none) :
    findDoc (l ++ [doc]) d = if doc.id = d then some doc else none := by
  induction l with
  | nil => simp [findDoc]
  | cons a rest ih =>
      rw [findDoc] at h
      by_cases ha : a.id = d
      · simp [ha] at h
      · rw [List.cons_append, findDoc, if_neg ha]
        exact ih (by simpa [ha] using h)

theorem findDoc_id (l : List StoredDoc) (d : String) (doc : StoredDoc)
    (h : findDoc l d = some doc) : doc.id = d := by
  induction l with
  | nil => simp [findDoc] at h
  | cons a rest ih =>
      rw [findDoc] at h
      by_cases ha : a.id = d
      · rw [if_pos ha] at h
        cases h
        exact ha
      · rw [if_neg ha] at h
        exact ih h

theorem containsStr_of_eq (s a t b : String) (h : s = a ++ t ++ b) :
    containsStr s t := by
  subst h
  exact ⟨a.data, b.data, by simp [String.data_append]⟩

/-- C1: with the Store Handle unset, every one of the five tool operations
returns an error payload (a mapping, or one-element list of a mapping, whose
"error" entry says Firestore is not initialized) and issues zero store calls. -/
theorem uninitialized_tools_error_no_store_call (c d : String) (lim : Nat)
    (data : Dict) :
    query_firestore_collection none c lim =
      ([[("error", Value.vstr
          "Firestore not initialized. Check server logs and serviceAccountKey.json.")]],
       []) ∧
    add_document_to_firestore none c data =
      ([("success", Value.vbool false),
        ("error", Value.vstr
          "Firestore not initialized. Check server logs and serviceAccountKey.json.")],
       []) ∧
    list_firestore_collections none =
      ([[("error", Value.vstr "Firestore not initialized. Check server logs.")]],
       []) ∧
    get_firestore_document none c d =
      ([("error", Value.vstr "Firestore not initialized. Check server logs.")],
       []) ∧
    list_document_subcollections none c d =
      ([[("error", Value.vstr "Firestore not initialized. Check server logs.")]],
       []) :=
  ⟨rfl, rfl, rfl, rfl, rfl⟩

/-- C4: `get_firestore_document` on a document that does not exist returns (it
never raises; the embedding is a total function) an error payload whose
message contains both the collection name and the document id. -/
theorem get_missing_doc_error (client : Client) (c d : String) (snap : Snapshot)
    (hget : client.getDoc c d = Except.ok snap)
    (hmiss : snap.exists_ = false) :
    (get_firestore_document (some client) c d).1 =
      [("error", Value.vstr
        ("Document \x27" ++ d ++ "\x27 not found in \x27" ++ c ++ "\x27."))] ∧
    containsStr ("Document \x27" ++ d ++ "\x27 not found in \x27" ++ c ++ "\x27.") c ∧
    containsStr ("Document \x27" ++ d ++ "\x27 not found in \x27" ++ c ++ "\x27.") d := by
  refine ⟨?_, ?_, ?_⟩
  · simp [get_firestore_document, hget, hmiss]
  · exact containsStr_of_eq _ ("Document \x27" ++ d ++ "\x27 not found in \x27") c
      "\x27." (by simp [String.append_assoc])
  · exact containsStr_of_eq _ "Document \x27" d
      ("\x27 not found in \x27" ++ c ++ "\x27.") (by simp [String.append_assoc])

/-- C4 witness: the empty store at collection "users", document id "u1". -/
theorem get_missing_doc_error_witness :
    (get_firestore_document (some (storeClient emptyStore)) "users" "u1").1 =
      [("error", Value.vstr
        ("Document \x27" ++ "u1" ++ "\x27 not found in \x27" ++ "users" ++ "\x27."))] ∧
    containsStr ("Document \x27" ++ "u1" ++ "\x27 not found in \x27" ++ "users" ++ "\x27.") "users" ∧
    containsStr ("Document \x27" ++ "u1" ++ "\x27 not found in \x27" ++ "users" ++ "\x27.") "u1" :=
  get_missing_doc_error (storeClient emptyStore) "users" "u1"
    ⟨false, none, "u1"⟩ rfl rfl

/-- C10: `get_firestore_document` on an existing document whose stored field
mapping is empty returns the mapping with keys "id" (the store-assigned
identifier), "data" (Python `None`) and "message", and no "error" key. -/
theorem get_empty_doc_payload (s : FStore) (c d : String) (doc : StoredDoc)
    (hfind : findDoc (collDocs s c) d = some doc)
    (hempty : doc.fields = []) :
    (get_firestore_document (some (storeClient s)) c d).1 =
      [("id", Value.vstr doc.id), ("data", Value.vnull),
       ("message", Value.vstr "Document exists but contains no data.")] ∧
    dictLookup (get_firestore_document (some (storeClient s)) c d).1 "error" = none ∧
    dictLookup (get_firestore_document (some (storeClient s)) c d).1 "id" =
      some (Value.vstr doc.id) ∧
    dictLookup (get_firestore_document (some (storeClient s)) c d).1 "data" =
      some Value.vnull ∧
    dictLookup (get_firestore_document (some (storeClient s)) c d).1 "message" =
      some (Value.vstr "Document exists but contains no data.") := by
  have hres : (get_firestore_document (some (storeClient s)) c d).1 =
      [("id", Value.vstr doc.id), ("data", Value.vnull),
       ("message", Value.vstr "Document exists but contains no data.")] := by
    simp [get_firestore_document, storeClient, storeGetDoc, hfind, hempty,
      optDictTruthy]
  refine ⟨hres, ?_, ?_, ?_, ?_⟩ <;> simp [hres, dictLookup]

/-- C10 witness: the store whose only document "d1" exists with no fields. -/
theorem get_empty_doc_payload_witness :
    (get_firestore_document (some (storeClient emptyDocStore)) "c" "d1").1 =
      [("id", Value.vstr "d1"), ("data", Value.vnull),
       ("message", Value.vstr "Document exists but contains no data.")] ∧
    dictLookup (get_firestore_document (some (storeClient emptyDocStore)) "c" "d1").1 "error" = none :=
  ⟨(get_empty_doc_payload emptyDocStore "c" "d1" ⟨"d1", []⟩ rfl rfl).1,
   (get_empty_doc_payload emptyDocStore "c" "d1" ⟨"d1", []⟩ rfl rfl).2.1⟩

/-- C2 (amended): on a collection of `N ≥ L` documents all of which have a
non-empty field mapping, `query_firestore_collection` with `limit = L` returns
exactly `L` documents, pairwise carrying an "id" field equal to the
corresponding document's store-assigned identifier.  (Unamended, the claim
fails: a document whose field mapping is empty is silently dropped by the
`if doc_data:` truthiness test, see the counterexample.) -/
theorem query_limit_exact (s : FStore) (c : String) (L : Nat)
    (hall : ∀ doc ∈ collDocs s c, doc.fields ≠ [])
    (hN : L ≤ (collDocs s c).length) :
    ((query_firestore_collection (some (storeClient s)) c L).1).length = L ∧
    List.Forall₂ (fun r doc => dictLookup r "id" = some (Value.vstr doc.id))
      ((query_firestore_collection (some (storeClient s)) c L).1)
      ((collDocs s c).take L) := by
  have hres : (query_firestore_collection (some (storeClient s)) c L).1 =
      ((collDocs s c).take L).map
        (fun doc => dictSet doc.fields "id" (Value.vstr doc.id)) := by
    simp only [query_firestore_collection, storeClient]
    exact collectDocs_eq_map _ (fun doc hd => hall doc (List.mem_of_mem_take hd))
  constructor
  · rw [hres]
    simp [List.length_take]
    omega
  · rw [hres, List.forall₂_map_left_iff]
    exact List.forall₂_same.mpr
      (fun doc _ => dictLookup_dictSet_self doc.fields "id" (Value.vstr doc.id))

/-- C2 counterexample: the collection "c" of `emptyDocStore` holds `N = 1`
document, yet a query with `limit = 1` returns 0 documents, because the sole
document has an empty field mapping and is dropped. -/
theorem query_limit_cex :
    (collDocs emptyDocStore "c").length = 1 ∧
    ((query_firestore_collection (some (storeClient emptyDocStore)) "c" 1).1).length = 0 ∧
    ¬ ((query_firestore_collection (some (storeClient emptyDocStore)) "c" 1).1).length = 1 := by
  refine ⟨rfl, rfl, ?_⟩
  decide

/-- C2 witness: querying the two-document collection "users" of `wStore` with
`limit = 2` returns exactly 2 documents with the right identifiers. -/
theorem query_limit_witness :
    ((query_firestore_collection (some (storeClient wStore)) "users" 2).1).length = 2 ∧
    List.Forall₂ (fun r doc => dictLookup r "id" = some (Value.vstr doc.id))
      ((query_firestore_collection (some (storeClient wStore)) "users" 2).1)
      ((collDocs wStore "users").take 2) :=
  query_limit_exact wStore "users" 2 (by decide) (by decide)

/-- C3 (amended): for every collection name and every NON-EMPTY document-field
mapping, adding the document and immediately getting it back by the returned
id yields a mapping whose fields agree with the submitted fields on every key
other than "id", plus an "id" key equal to the assigned identifier.  The
freshness hypothesis says the auto-generated id is not already in use, which
the real store guarantees for its generated ids.  (Unamended, the claim fails
for the empty mapping: the get then answers with an {"id", "data", "message"}
payload instead of the submitted fields, see the counterexample.) -/
theorem add_get_roundtrip (s : FStore) (c : String) (data : Dict)
    (hdata : data ≠ [])
    (hfresh : findDoc (collDocs s c) (freshId s) = none) :
    dictLookup (add_document_to_firestore (some (storeClient s)) c data).1 "success"
      = some (Value.vbool true) ∧
    dictLookup (add_document_to_firestore (some (storeClient s)) c data).1 "id"
      = some (Value.vstr (freshId s)) ∧
    (∀ k, k ≠ "id" →
      dictLookup (get_firestore_document
        (some (storeClient (storeAdd s c data).1)) c (freshId s)).1 k
        = dictLookup data k) ∧
    dictLookup (get_firestore_document
      (some (storeClient (storeAdd s c data).1)) c (freshId s)).1 "id"
      = some (Value.vstr (freshId s)) := by
  have hadd : (add_document_to_firestore (some (storeClient s)) c data).1 =
      [("success", Value.vbool true), ("id", Value.vstr (freshId s)),
       ("message", Value.vstr ("Document added to \x27" ++ c ++ "\x27"))] := rfl
  have hfind : findDoc (collDocs (storeAdd s c data).1 c) (freshId s) =
      some ⟨freshId s, data⟩ := by
    rw [collDocs_storeAdd, findDoc_append_sentinel _ _ _ hfresh]
    simp
  have htr : optDictTruthy (some data) = true := by
    cases data with
    | nil => exact absurd rfl hdata
    | cons a t => rfl
  have hget : (get_firestore_document
      (some (storeClient (storeAdd s c data).1)) c (freshId s)).1 =
      dictSet data "id" (Value.vstr (freshId s)) := by
    simp [get_firestore_document, storeClient, storeGetDoc, hfind, htr]
  refine ⟨?_, ?_, ?_, ?_⟩
  · rw [hadd]
    simp [dictLookup]
  · rw [hadd]
    simp [dictLookup]
  · intro k hk
    rw [hget]
    exact dictLookup_dictSet_other data "id" k (Value.vstr (freshId s)) hk
  · rw [hget]
    exact dictLookup_dictSet_self data "id" (Value.vstr (freshId s))

/-- C3 counterexample: adding the EMPTY mapping to collection "c" of the empty
store assigns id "auto-0", but the immediate get returns the special
"Document exists but contains no data." payload, which has a "message" key the
submitted mapping lacks — so the round-trip property fails as stated. -/
theorem add_get_roundtrip_cex :
    dictLookup (add_document_to_firestore (some (storeClient emptyStore)) "c" []).1 "id"
      = some (Value.vstr "auto-0") ∧
    dictLookup (get_firestore_document
      (some (storeClient (storeAdd emptyStore "c" []).1)) "c" "auto-0").1 "message"
      = some (Value.vstr "Document exists but contains no data.") ∧
    dictLookup ([] : Dict) "message" = none := by
  refine ⟨?_, ?_, rfl⟩ <;> rfl

/-- C3 witness: round trip of {"name": "Ada"} through collection "users" of
the empty store. -/
theorem add_get_roundtrip_witness :
    dictLookup (add_document_to_firestore (some (storeClient emptyStore)) "users"
      [("name", Value.vstr "Ada")]).1 "success" = some (Value.vbool true) ∧
    dictLookup (get_firestore_document
      (some (storeClient (storeAdd emptyStore "users" [("name", Value.vstr "Ada")]).1))
      "users" (freshId emptyStore)).1 "name"
      = dictLookup [("name", Value.vstr "Ada")] "name" ∧
    dictLookup (get_firestore_document
      (some (storeClient (storeAdd emptyStore "users" [("name", Value.vstr "Ada")]).1))
      "users" (freshId emptyStore)).1 "id" = some (Value.vstr (freshId emptyStore)) := by
  have h := add_get_roundtrip emptyStore "users" [("name", Value.vstr "Ada")]
    (by decide) rfl
  exact ⟨h.1, h.2.2.1 "name" (by decide), h.2.2.2⟩

/-- C5: with an initialized handle, `list_document_subcollections` on a
missing parent document returns a one-element error sequence with the
existence probe as its only store call (no subcollection enumeration is
attempted); on an existing parent with zero subcollections it returns the
empty sequence — so the two cases are distinguishable. -/
theorem subcollections_distinguishable (s1 s2 : FStore) (c1 d1 c2 d2 : String) :
    (findDoc (collDocs s1 c1) d1 = none →
      list_document_subcollections (some (storeClient s1)) c1 d1 =
        ([[("error", Value.vstr
            ("Document \x27" ++ d1 ++ "\x27 not found in \x27" ++ c1 ++ "\x27."))]],
         [StoreCall.getDoc c1 d1])) ∧
    (∀ doc, findDoc (collDocs s2 c2) d2 = some doc → subcollIds s2 c2 d2 = [] →
      (list_document_subcollections (some (storeClient s2)) c2 d2).1 = []) := by
  constructor
  · intro h
    simp [list_document_subcollections, storeClient, storeGetDoc, h]
  · intro doc h hsub
    simp [list_document_subcollections, storeClient, storeGetDoc, h, hsub]

/-- C5 witness: missing parent "b" in the empty store versus existing parent
"u1" of `wStore`, which has no subcollections. -/
theorem subcollections_distinguishable_witness :
    list_document_subcollections (some (storeClient emptyStore)) "a" "b" =
      ([[("error", Value.vstr
          ("Document \x27" ++ "b" ++ "\x27 not found in \x27" ++ "a" ++ "\x27."))]],
       [StoreCall.getDoc "a" "b"]) ∧
    (list_document_subcollections (some (storeClient wStore)) "users" "u1").1 = [] := by
  have h := subcollections_distinguishable emptyStore wStore "a" "b" "users" "u1"
  exact ⟨h.1 rfl,
    h.2 ⟨"u1", [("id", Value.vstr "shadow"), ("name", Value.vstr "Ada")]⟩ rfl rfl⟩

/-- C7: listing operations with an initialized handle and an exception-free
store return the empty sequence (never a failure payload) when zero matching
items exist; `list_firestore_collections` on the happy path returns exactly
one {"id"} mapping per collection, i.e. never an error payload. -/
theorem listing_zero_items_empty (s1 s2 s3 : FStore) (c1 : String) (lim : Nat)
    (c3 d3 : String) :
    (collDocs s1 c1 = [] →
      (query_firestore_collection (some (storeClient s1)) c1 lim).1 = []) ∧
    (s2.colls = [] → (list_firestore_collections (some (storeClient s2))).1 = []) ∧
    ((list_firestore_collections (some (storeClient s2))).1 =
      s2.colls.map (fun p => [("id", Value.vstr p.1)])) ∧
    (∀ doc, findDoc (collDocs s3 c3) d3 = some doc → subcollIds s3 c3 d3 = [] →
      (list_document_subcollections (some (storeClient s3)) c3 d3).1 = []) := by
  refine ⟨?_, ?_, ?_, ?_⟩
  · intro h
    simp [query_firestore_collection, storeClient, h, collectDocs]
  · intro h
    simp [list_firestore_collections, storeClient, h]
  · simp [list_firestore_collections, storeClient]
  · intro doc h hsub
    simp [list_document_subcollections, storeClient, storeGetDoc, h, hsub]

/-- C7 witness: empty query on an absent collection, empty collection listing
on the empty store, empty subcollection listing for existing parent "u2". -/
theorem listing_zero_items_empty_witness :
    (query_firestore_collection (some (storeClient emptyStore)) "nope" 50).1 = [] ∧
    (list_firestore_collections (some (storeClient emptyStore))).1 = [] ∧
    (list_document_subcollections (some (storeClient wStore)) "users" "u2").1 = [] := by
  have h := listing_zero_items_empty emptyStore emptyStore wStore "nope" 50 "users" "u2"
  exact ⟨h.1 rfl, h.2.1 rfl, h.2.2.2 ⟨"u2", [("x", Value.vint 3)]⟩ rfl rfl⟩

/-- C8: every document mapping returned by `query_firestore_collection` is a
stored document's field mapping merged with an "id" binding equal to that
document's store-assigned identifier (the merge overwrites any stored field
named "id"); and `get_firestore_document` on an existing document with a
non-empty field mapping returns a mapping whose "id" entry equals the
store-assigned identifier. -/
theorem returned_docs_id_field (s : FStore) (c : String) (lim : Nat) (d : String) :
    (∀ r ∈ (query_firestore_collection (some (storeClient s)) c lim).1,
      ∃ doc, doc ∈ collDocs s c ∧
        r = dictSet doc.fields "id" (Value.vstr doc.id) ∧
        dictLookup r "id" = some (Value.vstr doc.id)) ∧
    (∀ doc, findDoc (collDocs s c) d = some doc → doc.fields ≠ [] →
      dictLookup (get_firestore_document (some (storeClient s)) c d).1 "id"
        = some (Value.vstr doc.id)) := by
  constructor
  · intro r hr
    have hr' : r ∈ collectDocs ((collDocs s c).take lim) := by
      simpa [query_firestore_collection, storeClient] using hr
    obtain ⟨doc, hm, he⟩ := mem_collectDocs _ _ hr'
    exact ⟨doc, List.mem_of_mem_take hm, he,
      he ▸ dictLookup_dictSet_self doc.fields "id" (Value.vstr doc.id)⟩
  · intro doc h hne
    have htr : optDictTruthy (some doc.fields) = true := by
      cases hf : doc.fields with
      | nil => exact absurd hf hne
      | cons a t => simp [optDictTruthy, hf]
    have hget : (get_firestore_document (some (storeClient s)) c d).1 =
        dictSet doc.fields "id" (Value.vstr doc.id) := by
      simp [get_firestore_document, storeClient, storeGetDoc, h, htr]
    rw [hget]
    exact dictLookup_dictSet_self doc.fields "id" (Value.vstr doc.id)

/-- C8 witness: document "u1" of `wStore` stores a field literally named "id"
with value "shadow"; both the query result and the get result carry
"id" = "u1", the store-assigned identifier, instead. -/
theorem returned_docs_id_field_witness :
    (∃ doc, doc ∈ collDocs wStore "users" ∧
      [("id", Value.vstr "u1"), ("name", Value.vstr "Ada")] =
        dictSet doc.fields "id" (Value.vstr doc.id) ∧
      dictLookup [("id", Value.vstr "u1"), ("name", Value.vstr "Ada")] "id"
        = some (Value.vstr doc.id)) ∧
    dictLookup (get_firestore_document (some (storeClient wStore)) "users" "u1").1 "id"
      = some (Value.vstr "u1") := by
  have h := returned_docs_id_field wStore "users" 2 "u1"
  refine ⟨h.1 [("id", Value.vstr "u1"), ("name", Value.vstr "Ada")] (by decide), ?_⟩
  exact h.2 ⟨"u1", [("id", Value.vstr "shadow"), ("name", Value.vstr "Ada")]⟩ rfl
    (by decide)

/-- C6 (amended): every store-call exception is caught at the point of call
and surfaced as an in-band error payload (the embedding is total: no
exception crosses the tool boundary).  The message includes the collection
name for `query_firestore_collection` and `add_document_to_firestore`, both
the collection name and the document id for `get_firestore_document`, and the
document id — but NOT the collection name — for
`list_document_subcollections` (whichever of its two store calls raised);
`list_firestore_collections` takes no identifiers.  (Unamended, the claim
fails: the subcollection listing's message omits the collection name, see the
counterexample.) -/
theorem store_exception_inband (cl1 cl2 cl3 cl4 cl5 cl6 : Client)
    (c1 c2 c4 c5 c6 d4 d5 d6 e1 e2 e3 e4 e5 e6 : String)
    (lim : Nat) (data : Dict) :
    (cl1.queryStream c1 lim = Except.error e1 →
      query_firestore_collection (some cl1) c1 lim =
        ([[("error", Value.vstr
            ("Failed to query collection \x27" ++ c1 ++ "\x27: " ++ e1))]],
         [StoreCall.queryStream c1 lim]) ∧
      containsStr ("Failed to query collection \x27" ++ c1 ++ "\x27: " ++ e1) c1) ∧
    (cl2.addDoc c2 data = Except.error e2 →
      add_document_to_firestore (some cl2) c2 data =
        ([("success", Value.vbool false),
          ("error", Value.vstr
            ("Failed to add document to \x27" ++ c2 ++ "\x27: " ++ e2))],
         [StoreCall.addDoc c2 data]) ∧
      containsStr ("Failed to add document to \x27" ++ c2 ++ "\x27: " ++ e2) c2) ∧
    (cl3.collectionsList = Except.error e3 →
      list_firestore_collections (some cl3) =
        ([[("error", Value.vstr ("Failed to list collections: " ++ e3))]],
         [StoreCall.collectionsList])) ∧
    (cl4.getDoc c4 d4 = Except.error e4 →
      get_firestore_document (some cl4) c4 d4 =
        ([("error", Value.vstr
            ("Failed to get document \x27" ++ d4 ++ "\x27 from \x27" ++ c4 ++
             "\x27: " ++ e4))],
         [StoreCall.getDoc c4 d4]) ∧
      containsStr ("Failed to get document \x27" ++ d4 ++ "\x27 from \x27" ++ c4 ++
        "\x27: " ++ e4) c4 ∧
      containsStr ("Failed to get document \x27" ++ d4 ++ "\x27 from \x27" ++ c4 ++
        "\x27: " ++ e4) d4) ∧
    (cl5.getDoc c5 d5 = Except.error e5 →
      list_document_subcollections (some cl5) c5 d5 =
        ([[("error", Value.vstr
            ("Failed to list subcollections for \x27" ++ d5 ++ "\x27: " ++ e5))]],
         [StoreCall.getDoc c5 d5]) ∧
      containsStr ("Failed to list subcollections for \x27" ++ d5 ++ "\x27: " ++ e5) d5) ∧
    (∀ snap, cl6.getDoc c6 d6 = Except.ok snap → snap.exists_ = true →
      cl6.docCollections c6 d6 = Except.error e6 →
      list_document_subcollections (some cl6) c6 d6 =
        ([[("error", Value.vstr
            ("Failed to list subcollections for \x27" ++ d6 ++ "\x27: " ++ e6))]],
         [StoreCall.getDoc c6 d6, StoreCall.docCollections c6 d6]) ∧
      containsStr ("Failed to list subcollections for \x27" ++ d6 ++ "\x27: " ++ e6) d6) := by
  refine ⟨?_, ?_, ?_, ?_, ?_, ?_⟩
  · intro h
    refine ⟨by simp [query_firestore_collection, h], ?_⟩
    exact containsStr_of_eq _ "Failed to query collection \x27" c1 ("\x27: " ++ e1)
      (by simp [String.append_assoc])
  · intro h
    refine ⟨by simp [add_document_to_firestore, h], ?_⟩
    exact containsStr_of_eq _ "Failed to add document to \x27" c2 ("\x27: " ++ e2)
      (by simp [String.append_assoc])
  · intro h
    simp [list_firestore_collections, h]
  · intro h
    refine ⟨by simp [get_firestore_document, h], ?_, ?_⟩
    · exact containsStr_of_eq _
        ("Failed to get document \x27" ++ d4 ++ "\x27 from \x27") c4
        ("\x27: " ++ e4) (by simp [String.append_assoc])
    · exact containsStr_of_eq _ "Failed to get document \x27" d4
        ("\x27 from \x27" ++ c4 ++ "\x27: " ++ e4) (by simp [String.append_assoc])
  · intro h
    refine ⟨by simp [list_document_subcollections, h], ?_⟩
    exact containsStr_of_eq _ "Failed to list subcollections for \x27" d5
      ("\x27: " ++ e5) (by simp [String.append_assoc])
  · intro snap hok hex hcoll
    refine ⟨by simp [list_document_subcollections, hok, hex, hcoll], ?_⟩
    exact containsStr_of_eq _ "Failed to list subcollections for \x27" d6
      ("\x27: " ++ e6) (by simp [String.append_assoc])

/-- C6 counterexample: a store-call exception ("boom") during subcollection
enumeration for document "mydoc" of collection "mycol" yields a message that
does NOT contain the collection name "mycol". -/
theorem store_exception_inband_cex :
    (list_document_subcollections (some subcollFailClient) "mycol" "mydoc").1 =
      [[("error", Value.vstr
          "Failed to list subcollections for \x27mydoc\x27: boom")]] ∧
    ¬ containsStr "Failed to list subcollections for \x27mydoc\x27: boom" "mycol" := by
  constructor
  · rfl
  · decide

/-- C6 witness: `allFailClient` raises "boom" on every store call;
`subcollFailClient` raises only during subcollection enumeration. -/
theorem store_exception_inband_witness :
    query_firestore_collection (some allFailClient) "qc" 5 =
      ([[("error", Value.vstr
          ("Failed to query collection \x27" ++ "qc" ++ "\x27: " ++ "boom"))]],
       [StoreCall.queryStream "qc" 5]) ∧
    add_document_to_firestore (some allFailClient) "ac" [] =
      ([("success", Value.vbool false),
        ("error", Value.vstr
          ("Failed to add document to \x27" ++ "ac" ++ "\x27: " ++ "boom"))],
       [StoreCall.addDoc "ac" []]) ∧
    list_firestore_collections (some allFailClient) =
      ([[("error", Value.vstr ("Failed to list collections: " ++ "boom"))]],
       [StoreCall.collectionsList]) ∧
    get_firestore_document (some allFailClient) "gc" "gd" =
      ([("error", Value.vstr
          ("Failed to get document \x27" ++ "gd" ++ "\x27 from \x27" ++ "gc" ++
           "\x27: " ++ "boom"))],
       [StoreCall.getDoc "gc" "gd"]) ∧
    list_document_subcollections (some allFailClient) "sc" "sd" =
      ([[("error", Value.vstr
          ("Failed to list subcollections for \x27" ++ "sd" ++ "\x27: " ++ "boom"))]],
       [StoreCall.getDoc "sc" "sd"]) ∧
    list_document_subcollections (some subcollFailClient) "sc2" "sd2" =
      ([[("error", Value.vstr
          ("Failed to list subcollections for \x27" ++ "sd2" ++ "\x27: " ++ "boom"))]],
       [StoreCall.getDoc "sc2" "sd2", StoreCall.docCollections "sc2" "sd2"]) := by
  have h := store_exception_inband allFailClient allFailClient allFailClient
    allFailClient allFailClient subcollFailClient
    "qc" "ac" "gc" "sc" "sc2" "gd" "sd" "sd2"
    "boom" "boom" "boom" "boom" "boom" "boom" 5 []
  exact ⟨(h.1 rfl).1, (h.2.1 rfl).1, h.2.2.1 rfl, (h.2.2.2.1 rfl).1,
    (h.2.2.2.2.1 rfl).1,
    (h.2.2.2.2.2 ⟨true, some [("x", Value.vint 1)], "sd2"⟩ rfl rfl rfl).1⟩

/-- C9: `firebase_lifespan` never raises (the embedding is total) and always
signals readiness to serve; the Store Handle ends up set if and only if the
credential file exists at the resolved path and credential parsing plus
client construction succeed — so the handle is fully usable or absent, never
partial.  The five tools read the handle as a plain parameter and return no
updated handle, so it is never reassigned after initialization. -/
theorem lifespan_ready_handle (env : InitEnv) :
    (firebase_lifespan env).2 = true ∧
    (∀ cl, (firebase_lifespan env).1 = some cl ↔
      env.credFileExists = true ∧ env.buildClient = Except.ok cl) := by
  obtain ⟨fe, bc⟩ := env
  cases fe with
  | false => exact ⟨rfl, fun cl => by simp [firebase_lifespan]⟩
  | true =>
      cases bc with
      | ok c => exact ⟨rfl, fun cl => by simp [firebase_lifespan]⟩
      | error e => exact ⟨rfl, fun cl => by simp [firebase_lifespan]⟩

/-- C9 witness: with the credential file present and client construction
succeeding, the lifespan signals readiness and sets the handle. -/
theorem lifespan_ready_handle_witness :
    (firebase_lifespan ⟨true, Except.ok (storeClient emptyStore)⟩).2 = true ∧
    (firebase_lifespan ⟨true, Except.ok (storeClient emptyStore)⟩).1 =
      some (storeClient emptyStore) := by
  have h := lifespan_ready_handle ⟨true, Except.ok (storeClient emptyStore)⟩
  exact ⟨h.1, (h.2 (storeClient emptyStore)).mpr ⟨rfl, rfl⟩⟩
